import Mathlib

/-!
Verification of the Electrolux AC frame codec and command facade
(`electrolux/cli.py`).

Bytes are modelled as `Nat` (Python `bytearray` elements), byte buffers as
`List Nat`.  Python `bytearray` slice assignment `xs[a:b] = repl` replaces
the slice and resizes the buffer when `repl` has a different length; this
semantics is captured by `setSlice`.  Python's negative-index slicing used
by `dcry[0xE : 0xE + r_length]` is captured by `pySlice`.
-/

/-- Python `n.to_bytes(2, "little")` (defined for `n < 65536`). -/
def toBytesLE2 (n : Nat) : List Nat := [n % 256, n / 256]

/-- Python bytearray slice assignment `xs[start:stop] = repl` for
`start ≤ stop ≤ xs.length`.  When `repl.length ≠ stop - start` the buffer
is resized, exactly as CPython does for step-1 slices. -/
def setSlice (xs : List Nat) (start stop : Nat) (repl : List Nat) : List Nat :=
  xs.take start ++ repl ++ xs.drop stop

/-- Normalisation of a Python slice bound: negative indices count from the
end, and the result is clamped to `[0, n]`. -/
def pyNorm (n i : Int) : Int :=
  if i < 0 then max 0 (n + i) else min i n

/-- Python slice `xs[start:stop]` with step 1. -/
def pySlice (xs : List Nat) (start stop : Int) : List Nat :=
  let s := (pyNorm xs.length start).toNat
  let t := (pyNorm xs.length stop).toNat
  (xs.drop s).take (t - s)

/-- `struct.unpack("h", bytes([lo, hi]))[0]`: the little-endian signed
16-bit integer with low byte `lo` and high byte `hi`. -/
def int16LE (lo hi : Nat) : Int :=
  let u : Nat := lo % 256 + 256 * (hi % 256)
  if u < 32768 then (u : Int) else (u : Int) - 65536

/-- Errors surfaced by the decode half of `Electrolux._send`. -/
inductive ProtoError where
  | DeviceProtocolError : Nat → ProtoError
  | ChecksumValidationError : ProtoError
deriving DecidableEq, Repr

/-- The frame-building phase of `Electrolux._send` (cli.py lines 39-50):

    packet = bytearray(0xD)
    packet[0x00:0x02] = command.to_bytes(2, "little")
    packet[0x02:0x06] = bytes.fromhex("a5a55a5a")
    packet[0x08] = 0x01 if len(data) <= 2 else 0x02
    packet[0x09] = 0x0b
    packet[0xA:0xB] = len(data).to_bytes(2, "little")
    packet.extend(data)
    d_checksum = sum(packet[0x08:], 0xC0AD) & 0xFFFF
    packet[0x06:0x08] = d_checksum.to_bytes(2, "little")

Note the assignment at line 45 writes a 2-byte value into the 1-byte
slice `[0xA:0xB]`, which grows the bytearray from 13 to 14 bytes. -/
def encodeFrame (command : Nat) (data : List Nat) : List Nat :=
  let packet := List.replicate 0xD 0
  let packet := setSlice packet 0x00 0x02 (toBytesLE2 command)
  let packet := setSlice packet 0x02 0x06 [0xA5, 0xA5, 0x5A, 0x5A]
  let packet := packet.set 0x08 (if data.length ≤ 2 then 0x01 else 0x02)
  let packet := packet.set 0x09 0x0B
  let packet := setSlice packet 0xA 0xB (toBytesLE2 data.length)
  let packet := packet ++ data
  let d_checksum := (0xC0AD + (packet.drop 0x08).sum) % 65536
  setSlice packet 0x06 0x08 (toBytesLE2 d_checksum)

/-- The validation of the decrypted inner buffer in `Electrolux._send`
(cli.py lines 56-66):

    r_checksum = sum(dcry[0x08:], 0xC0AD) & 0xFFFF
    r_response = struct.unpack("h", dcry[0x06:0x08])[0]
    if r_checksum != r_response:
        raise e.BroadlinkException(DataValidationError, ...)
    r_length = struct.unpack("h", dcry[0xA:0xC])[0]
    payload = dcry[0xE:0xE + r_length]
    return payload
-/
def decodeInner (dcry : List Nat) : Except ProtoError (List Nat) :=
  let r_checksum := (0xC0AD + (dcry.drop 0x08).sum) % 65536
  let r_response := int16LE (dcry.getD 0x06 0) (dcry.getD 0x07 0)
  if (r_checksum : Int) ≠ r_response then
    Except.error ProtoError.ChecksumValidationError
  else
    let r_length := int16LE (dcry.getD 0xA 0) (dcry.getD 0xB 0)
    Except.ok (pySlice dcry 0xE (0xE + r_length))

/-- Modelled from the spec: the 2-byte device status code that
`broadlink.exceptions.check_error(resp[0x22:0x24])` inspects; `0x0000`
means success and any nonzero code raises a device-protocol error
(`check_error` lives in the external broadlink dependency, not in this
repository). -/
def errCode (resp : List Nat) : Nat :=
  resp.getD 0x22 0 + 256 * resp.getD 0x23 0

/-- The response-handling phase of `Electrolux._send` (cli.py lines
52-66): check the device error code at offset 0x22, then decrypt from
offset 0x38 on (decryption belongs to the transport collaborator and is
passed in as a function), then validate and slice the inner buffer. -/
def decodeResp (decrypt : List Nat → List Nat) (resp : List Nat) :
    Except ProtoError (List Nat) :=
  if errCode resp ≠ 0 then
    Except.error (ProtoError.DeviceProtocolError (errCode resp))
  else
    decodeInner (decrypt (resp.drop 0x38))

/-! ## Command facade payloads (cli.py lines 68-220)

Each operation formats a small JSON literal with Python `%`-interpolation
and sends it with a fixed command code.  `dictGet` models `dict.get`
(returning `None` on a missing key) and `pyStr` models how `'%s'`
renders the lookup result (`None` prints as the string `"None"`). -/

/-- `bytearray(s, "ascii")` for an ASCII string `s`. -/
def asciiBytes (s : String) : List Nat := s.toList.map Char.toNat

/-- Python `'%s' % x` where `x` is an `int` or `None`. -/
def pyStr : Option Nat → String
  | some n => toString n
  | none => "None"

/-- Python `d.get(k)` on a string-keyed dict. -/
def dictGet (d : List (String × Nat)) (k : String) : Option Nat :=
  (d.find? (fun p => p.1 == k)).map Prod.snd

def power_states : List (String × Nat) := [("on", 1), ("off", 0)]
def modes : List (String × Nat) :=
  [("auto", 4), ("cool", 0), ("heat", 1), ("dry", 2), ("fan", 3), ("heat_8", 6)]
def fan_levels : List (String × Nat) :=
  [("auto", 0), ("low", 1), ("mid", 2), ("high", 3), ("turbo", 4), ("quiet", 5)]
def swing_states : List (String × Nat) := [("on", 1), ("off", 0)]
def led_states : List (String × Nat) := [("on", 1), ("off", 0)]
def sleep_states : List (String × Nat) := [("on", 1), ("off", 0)]
def clean_states : List (String × Nat) := [("on", 1), ("off", 0)]

/-- `Electrolux.status`: sends `'{}'` with command `0x0E`. -/
def status_payload : String := "\x7b\x7d"

/-- `Electrolux.temp`: clamps to `[16, 30]`, then formats
`'{"temp":%s}' % temp`. -/
def temp_payload (temp : Int) : String :=
  let temp := max 16 (min temp 30)
  "\x7b\"temp\":" ++ toString temp ++ "\x7d"

/-- `Electrolux.power`: `'{"ac_pwr":%s}' % (power_states.get(power))`. -/
def power_payload (power : String) : String :=
  "\x7b\"ac_pwr\":" ++ pyStr (dictGet power_states power) ++ "\x7d"

/-- `Electrolux.mode`: `'{"ac_mode":%s}' % (modes.get(mode))`. -/
def mode_payload (mode : String) : String :=
  "\x7b\"ac_mode\":" ++ pyStr (dictGet modes mode) ++ "\x7d"

/-- `Electrolux.fan`: `'{"ac_mark":%s}' % (fan_levels.get(fan_level))`. -/
def fan_payload (fan_level : String) : String :=
  "\x7b\"ac_mark\":" ++ pyStr (dictGet fan_levels fan_level) ++ "\x7d"

/-- `Electrolux.swing`: `'{"ac_vdir":%s}' % (swing_states.get(s))`. -/
def swing_payload (swing_state : String) : String :=
  "\x7b\"ac_vdir\":" ++ pyStr (dictGet swing_states swing_state) ++ "\x7d"

/-- `Electrolux.led`: `'{"scrdisp":%s}' % (led_states.get(s))`. -/
def led_payload (led_state : String) : String :=
  "\x7b\"scrdisp\":" ++ pyStr (dictGet led_states led_state) ++ "\x7d"

/-- `Electrolux.sleep`: `'{"ac_slp":%s}' % (sleep_states.get(s))`. -/
def sleep_payload (sleep_state : String) : String :=
  "\x7b\"ac_slp\":" ++ pyStr (dictGet sleep_states sleep_state) ++ "\x7d"

/-- `Electrolux.selfclean`: `'{"mldprf":%s}' % (clean_states.get(s))`. -/
def selfclean_payload (clean_state : String) : String :=
  "\x7b\"mldprf\":" ++ pyStr (dictGet clean_states clean_state) ++ "\x7d"

/-- Python `'%02d' % n` for `0 ≤ n ≤ 99`. -/
def fmt02 (n : Int) : String :=
  if n < 10 then "0" ++ toString n else toString n

/-- `Electrolux.timer`: clamps hours to `[0, 23]` and minutes to
`[0, 59]`, then formats `'{"timer":"%02d%02d|0%s"}'`. -/
def timer_payload (on_timer : Bool) (hours minutes : Int) : String :=
  let hours := max 0 (min hours 23)
  let minutes := max 0 (min minutes 59)
  "\x7b\"timer\":\"" ++ fmt02 hours ++ fmt02 minutes ++ "|0" ++
    (if on_timer then "1" else "0") ++ "\"\x7d"

/-- `Electrolux.clear_timer`: delegates to `timer(on_timer, 0, 0)`. -/
def clear_timer_payload (on_timer : Bool) : String :=
  timer_payload on_timer 0 0

/-- The `(command code, frame)` pair `Electrolux.mode` hands to
`send_packet`. -/
def mode_frame (mode : String) : Nat × List Nat :=
  (0x19, encodeFrame 0x19 (asciiBytes (mode_payload mode)))

/-- The `(command code, frame)` pair `Electrolux.power` hands to
`send_packet`. -/
def power_frame (power : String) : Nat × List Nat :=
  (0x18, encodeFrame 0x18 (asciiBytes (power_payload power)))

/-- The `(command code, frame)` pair `Electrolux.timer` hands to
`send_packet`. -/
def timer_frame (on_timer : Bool) (hours minutes : Int) : Nat × List Nat :=
  (0x1F, encodeFrame 0x1F (asciiBytes (timer_payload on_timer hours minutes)))

/-- The `(command code, frame)` pair `Electrolux.clear_timer` hands to
`send_packet` (via its call to `timer`). -/
def clear_timer_frame (on_timer : Bool) : Nat × List Nat :=
  timer_frame on_timer 0 0

/-! ## Normal form of the encoder -/

/-- The tail of the assembled frame from the size-class flag on: this is
exactly the byte range the outbound checksum is computed over. -/
def frameBody (data : List Nat) : List Nat :=
  (if data.length ≤ 2 then 0x01 else 0x02) :: 0x0B ::
    data.length % 256 :: data.length / 256 :: 0 :: 0 :: data

/-- Unfolding `encodeFrame`: the slice assignment at offset 10 grows the
13-byte header to 14 bytes, so the frame is 6 header bytes, the 2-byte
checksum, and then `frameBody data`. -/
theorem encodeFrame_eq (c : Nat) (d : List Nat) :
    encodeFrame c d =
      c % 256 :: c / 256 :: 0xA5 :: 0xA5 :: 0x5A :: 0x5A ::
      ((0xC0AD + (frameBody d).sum) % 65536) % 256 ::
      ((0xC0AD + (frameBody d).sum) % 65536) / 256 :: frameBody d := rfl

theorem encodeFrame_getD6 (c : Nat) (d : List Nat) :
    (encodeFrame c d).getD 6 0 = ((0xC0AD + (frameBody d).sum) % 65536) % 256 := rfl

theorem encodeFrame_getD7 (c : Nat) (d : List Nat) :
    (encodeFrame c d).getD 7 0 = ((0xC0AD + (frameBody d).sum) % 65536) / 256 := rfl

theorem encodeFrame_drop8 (c : Nat) (d : List Nat) :
    (encodeFrame c d).drop 8 = frameBody d := rfl

theorem int16LE_bounds (lo hi : Nat) :
    -32768 ≤ int16LE lo hi ∧ int16LE lo hi < 32768 := by
  unfold int16LE
  dsimp only
  split_ifs with h <;> constructor <;> omega

theorem decodeInner_isOk (dcry : List Nat) :
    (decodeInner dcry).isOk = true ↔
      ((0xC0AD + (dcry.drop 8).sum) % 65536 : Int) =
        int16LE (dcry.getD 6 0) (dcry.getD 7 0) := by
  unfold decodeInner
  dsimp only
  split_ifs with h
  · simp only [Except.isOk]
    constructor
    · intro hfalse; cases hfalse
    · intro heq; exact absurd heq h
  · simp only [Except.isOk]
    exact ⟨fun _ => not_not.mp h, fun _ => rfl⟩

/-! ## Claims -/

/-- Claim C1 (counterexample): the frame for payload `'{}'` has length
16 = 14 + 2, not 13 + 2 as the claim states — the payload does not begin
at offset 13. -/
theorem c1_counterexample :
    (encodeFrame 0x0E (asciiBytes status_payload)).length ≠
      13 + (asciiBytes status_payload).length := by decide

/-- Claim C1 (amended): Encode builds a 14-byte header followed by the
raw payload: the 2-byte length assigned into the 1-byte slice at offset
10 resizes the buffer, so both little-endian length bytes sit at offsets
10-11, two zero bytes remain at offsets 12-13, the payload begins at
offset 14 and the frame has length 14 + len(payload). -/
theorem c1_amended (c : Nat) (d : List Nat) (hd : d.length < 65536) :
    (encodeFrame c d).length = 14 + d.length ∧
    (encodeFrame c d).drop 14 = d ∧
    (encodeFrame c d).getD 10 0 = d.length % 256 ∧
    (encodeFrame c d).getD 11 0 = d.length / 256 ∧
    (encodeFrame c d).getD 12 0 = 0 ∧
    (encodeFrame c d).getD 13 0 = 0 := by
  refine ⟨?_, rfl, rfl, rfl, rfl, rfl⟩
  rw [encodeFrame_eq]
  simp [frameBody]
  omega

/-- Claim C1 (witness for the amended theorem) at command `0x0E` and the
two-byte payload `'{}'`. -/
theorem c1_witness :
    (encodeFrame 0x0E [123, 125]).length = 14 + ([123, 125] : List Nat).length ∧
    (encodeFrame 0x0E [123, 125]).drop 14 = [123, 125] ∧
    (encodeFrame 0x0E [123, 125]).getD 10 0 = ([123, 125] : List Nat).length % 256 ∧
    (encodeFrame 0x0E [123, 125]).getD 11 0 = ([123, 125] : List Nat).length / 256 ∧
    (encodeFrame 0x0E [123, 125]).getD 12 0 = 0 ∧
    (encodeFrame 0x0E [123, 125]).getD 13 0 = 0 :=
  c1_amended 0x0E [123, 125] (by decide)

/-- Claim C2 (counterexample): feeding the frame built for payload `'{}'`
back through the inner-buffer validation raises ChecksumValidationError —
the recomputed unsigned checksum 0xC1B3 does not equal the stored field
read back as the signed value -15949. -/
theorem c2_counterexample :
    decodeInner (encodeFrame 0x0E (asciiBytes status_payload)) =
      Except.error ProtoError.ChecksumValidationError := rfl

/-- Claim C2 (amended): the round-trip checksum comparison passes exactly
when the checksum (0xC0AD + sum of frame bytes from offset 8) mod 65536
is below 0x8000; since Decode reads the stored field back as a signed
16-bit value while recomputing an unsigned one, any frame whose checksum
has the high bit set fails with ChecksumValidationError. -/
theorem c2_amended (c : Nat) (d : List Nat) (hd : d.length < 65536) :
    (decodeInner (encodeFrame c d)).isOk = true ↔
      (0xC0AD + ((encodeFrame c d).drop 8).sum) % 65536 < 32768 := by
  rw [decodeInner_isOk, encodeFrame_getD6, encodeFrame_getD7, encodeFrame_drop8]
  unfold int16LE
  dsimp only
  split_ifs with h
  · constructor <;> intro h2 <;> omega
  · constructor <;> intro h2 <;> omega

/-- Claim C2 (witness for the amended theorem): a 64-byte payload of
0xFF bytes yields checksum 186 < 0x8000, and its frame round-trips
through the inner-buffer validation without error. -/
theorem c2_witness :
    (decodeInner (encodeFrame 0x0E (List.replicate 64 255))).isOk = true :=
  (c2_amended 0x0E (List.replicate 64 255) (by decide)).mpr (by decide)

/-- Claim C3: the symbolic-value operations do not fail fast on an
unknown value — `dict.get` returns None, `'%s'` renders it as the text
`None`, and the resulting (invalid-JSON) payload is placed in the frame
handed to `send_packet`: `mode("invalid")` sends `{"ac_mode":None}` and
`power("maybe")` sends `{"ac_pwr":None}` instead of raising
InvalidArgument before network I/O. -/
theorem c3_unknown_value_reaches_network :
    mode_payload "invalid" = "\x7b\"ac_mode\":None\x7d" ∧
    (mode_frame "invalid").2.drop 14 = asciiBytes "\x7b\"ac_mode\":None\x7d" ∧
    power_payload "maybe" = "\x7b\"ac_pwr\":None\x7d" ∧
    (power_frame "maybe").2.drop 14 = asciiBytes "\x7b\"ac_pwr\":None\x7d" :=
  ⟨rfl, rfl, rfl, rfl⟩

/-- Claim C4: whenever the recomputed inner checksum (seeded 0xC0AD over
bytes from offset 8, mod 65536) differs from the signed 16-bit
little-endian value stored at offsets 6-8, Decode raises
ChecksumValidationError and returns no payload. -/
theorem c4_checksum_mismatch (dcry : List Nat) (hlen : 14 ≤ dcry.length)
    (h : ((0xC0AD + (dcry.drop 8).sum) % 65536 : Int) ≠
      int16LE (dcry.getD 6 0) (dcry.getD 7 0)) :
    decodeInner dcry = Except.error ProtoError.ChecksumValidationError := by
  unfold decodeInner
  dsimp only
  exact if_pos h

/-- Claim C4 (witness): an all-zero 14-byte inner buffer stores checksum
0 but recomputes to 0xC0AD, so validation fails. -/
theorem c4_witness :
    decodeInner (List.replicate 14 0) =
      Except.error ProtoError.ChecksumValidationError :=
  c4_checksum_mismatch (List.replicate 14 0) (by decide) (by decide)

/-- Claim C5: a nonzero device error code at offset 0x22 of the raw
response makes Decode fail with DeviceProtocolError before decryption or
checksum validation: the result is the same for every possible decrypt
function, hence independent of the inner buffer's checksum. -/
theorem c5_error_checked_first (decrypt : List Nat → List Nat)
    (resp : List Nat) (hlen : 0x38 ≤ resp.length) (h : errCode resp ≠ 0) :
    decodeResp decrypt resp =
      Except.error (ProtoError.DeviceProtocolError (errCode resp)) := by
  unfold decodeResp
  rw [if_pos h]

/-- Claim C5 (witness): a 0x38-byte response with error byte 1 at offset
0x22 fails with DeviceProtocolError even under the identity decrypt. -/
theorem c5_witness :
    decodeResp (fun b => b) ((List.replicate 0x38 0).set 0x22 1) =
      Except.error (ProtoError.DeviceProtocolError
        (errCode ((List.replicate 0x38 0).set 0x22 1))) :=
  c5_error_checked_first (fun b => b) ((List.replicate 0x38 0).set 0x22 1)
    (by decide) (by decide)

/-- Claim C6: the checksum stored little-endian at offsets 6-8 of the
outbound frame equals (0xC0AD + sum of the final frame's bytes from
offset 8 to the end) mod 65536 — the summed range starts at offset 8, so
the checksum field itself never enters the sum it describes. -/
theorem c6_checksum_formula (c : Nat) (d : List Nat) :
    (encodeFrame c d).getD 6 0 + 256 * (encodeFrame c d).getD 7 0 =
      (0xC0AD + ((encodeFrame c d).drop 8).sum) % 65536 := by
  rw [encodeFrame_getD6, encodeFrame_getD7, encodeFrame_drop8]
  omega

/-- Claim C7: temperature clamps its argument to [16, 30] and timer
clamps hours to [0, 23] and minutes to [0, 59] before formatting, with
the concrete consequences the spec lists. -/
theorem c7_clamping :
    (∀ t : Int, temp_payload t = temp_payload (max 16 (min t 30))) ∧
    temp_payload (-5) = temp_payload 16 ∧
    temp_payload 99 = temp_payload 30 ∧
    (∀ (on_timer : Bool) (hours minutes : Int),
      timer_payload on_timer hours minutes =
        timer_payload on_timer (max 0 (min hours 23)) (max 0 (min minutes 59))) ∧
    (∀ on_timer : Bool, timer_payload on_timer 30 70 = timer_payload on_timer 23 59) := by
  refine ⟨?_, rfl, rfl, ?_, ?_⟩
  · intro t
    have h : max 16 (min (max 16 (min t 30)) 30) = max 16 (min t 30) := by omega
    unfold temp_payload
    rw [h]
  · intro on_timer hours minutes
    have h1 : max 0 (min (max 0 (min hours 23)) 23) = max 0 (min hours 23) := by omega
    have h2 : max 0 (min (max 0 (min minutes 59)) 59) = max 0 (min minutes 59) := by omega
    unfold timer_payload
    rw [h1, h2]
  · intro on_timer
    cases on_timer <;> rfl

/-- Claim C8: the size-class flag at offset 8 of the encoded frame is
0x01 for payloads of at most 2 bytes and 0x02 otherwise. -/
theorem c8_size_flag (c : Nat) (d : List Nat) (hd : d.length < 65536) :
    (encodeFrame c d).getD 8 0 = if d.length ≤ 2 then 0x01 else 0x02 := rfl

/-- Claim C8 (witness) at a 2-byte and a 3-byte payload. -/
theorem c8_witness :
    ((encodeFrame 0x0E [123, 125]).getD 8 0 =
      if ([123, 125] : List Nat).length ≤ 2 then 0x01 else 0x02) ∧
    ((encodeFrame 0x19 [1, 2, 3]).getD 8 0 =
      if ([1, 2, 3] : List Nat).length ≤ 2 then 0x01 else 0x02) :=
  ⟨c8_size_flag 0x0E [123, 125] (by decide), c8_size_flag 0x19 [1, 2, 3] (by decide)⟩

/-- Claim C9: clear_timer delegates to timer with hours = minutes = 0,
so it sends the same command code 0x1F and the same JSON payload, whose
string value is "0000|0" followed by the flag digit. -/
theorem c9_clear_timer_eq (on_timer : Bool) :
    clear_timer_frame on_timer = timer_frame on_timer 0 0 ∧
    (clear_timer_frame on_timer).1 = 0x1F ∧
    clear_timer_payload on_timer =
      "\x7b\"timer\":\"0000|0" ++ (if on_timer then "1" else "0") ++ "\"\x7d" := by
  refine ⟨rfl, rfl, ?_⟩
  cases on_timer <;> rfl

/-- Claim C10: Decode reads the declared payload length at inner-buffer
offsets 10-12 as a signed 16-bit integer and slices `dcry[14:14+length]`
with no bounds check, so on an inner buffer that passes the checksum but
declares a negative length or one exceeding the bytes remaining after
offset 14, it silently succeeds and returns an empty or truncated
payload: the result is `[]` or strictly shorter than both of the declared
length and the remaining bytes. -/
theorem c10_no_bounds_check (dcry : List Nat) (hlen : 14 ≤ dcry.length)
    (hck : ((0xC0AD + (dcry.drop 8).sum) % 65536 : Int) =
      int16LE (dcry.getD 6 0) (dcry.getD 7 0))
    (hbad : int16LE (dcry.getD 10 0) (dcry.getD 11 0) < 0 ∨
      (dcry.length : Int) - 14 < int16LE (dcry.getD 10 0) (dcry.getD 11 0)) :
    ∃ p, decodeInner dcry = Except.ok p ∧
      (p = [] ∨ p.length <
        max (dcry.length - 14) (int16LE (dcry.getD 10 0) (dcry.getD 11 0)).toNat) := by
  refine ⟨pySlice dcry 14 (14 + int16LE (dcry.getD 10 0) (dcry.getD 11 0)), ?_, ?_⟩
  · unfold decodeInner
    dsimp only
    exact if_neg (not_not.mpr hck)
  · have hL := int16LE_bounds (dcry.getD 10 0) (dcry.getD 11 0)
    have hlength : (pySlice dcry 14 (14 + int16LE (dcry.getD 10 0) (dcry.getD 11 0))).length =
        min ((pyNorm dcry.length (14 + int16LE (dcry.getD 10 0) (dcry.getD 11 0))).toNat -
            (pyNorm dcry.length 14).toNat)
          (dcry.length - (pyNorm dcry.length 14).toNat) := by
      simp [pySlice]
    have key : (pySlice dcry 14 (14 + int16LE (dcry.getD 10 0) (dcry.getD 11 0))).length = 0 ∨
        (pySlice dcry 14 (14 + int16LE (dcry.getD 10 0) (dcry.getD 11 0))).length <
          max (dcry.length - 14) (int16LE (dcry.getD 10 0) (dcry.getD 11 0)).toNat := by
      rw [hlength]
      unfold pyNorm
      split_ifs with h1 h2 <;> omega
    rcases key with h | h
    · exact Or.inl (List.length_eq_zero.mp h)
    · exact Or.inr h

/-- Claim C10 (witness): a 78-byte inner buffer with a valid checksum
whose declared length field 0xFFFF reads back as -1 decodes without
error to the empty payload. -/
theorem c10_witness :
    ∃ p, decodeInner ([0, 0, 0, 0, 0, 0, 107, 2, 0, 0, 255, 255, 0, 0] ++
        List.replicate 64 255) = Except.ok p ∧
      (p = [] ∨ p.length <
        max ((([0, 0, 0, 0, 0, 0, 107, 2, 0, 0, 255, 255, 0, 0] ++
            List.replicate 64 255 : List Nat)).length - 14)
          (int16LE ((([0, 0, 0, 0, 0, 0, 107, 2, 0, 0, 255, 255, 0, 0] ++
              List.replicate 64 255 : List Nat)).getD 10 0)
            ((([0, 0, 0, 0, 0, 0, 107, 2, 0, 0, 255, 255, 0, 0] ++
              List.replicate 64 255 : List Nat)).getD 11 0)).toNat) :=
  c10_no_bounds_check
    ([0, 0, 0, 0, 0, 0, 107, 2, 0, 0, 255, 255, 0, 0] ++ List.replicate 64 255)
    (by decide) (by decide) (by decide)
